import Mathlib

/-!
Verification of the `ruresol` bulk DNS resolution pipeline (src/main.rs).

The resolver engine (hickory) is an external collaborator; we embed its
interface as an oracle (`Resolver`) mapping the input string to the outcome
of each kind of lookup call. The core classification logic `process_entry`,
the stdin line filter, and the ordered output sink are translated from the
source. `process_entry` additionally returns the list of resolver calls it
performs, so that "the collaborator is never invoked" is expressible.
-/

/-- DNS response codes as matched by the source. `OtherCode` stands for all
response codes other than `NXDomain`, `NoError` and `ServFail` (the source
matches those with a wildcard arm). -/
inductive ResponseCode : Type where
  | NXDomain : ResponseCode
  | NoError : ResponseCode
  | ServFail : ResponseCode
  | OtherCode : ResponseCode
deriving DecidableEq, Repr

/-- The resolver error kinds the source distinguishes
(`hickory_resolver::error::ResolveErrorKind`). `OtherKind` stands for every
kind other than `NoRecordsFound` and `Timeout` (wildcard arm in the source). -/
inductive ResolveErrorKind : Type where
  | NoRecordsFound : ResponseCode → ResolveErrorKind
  | Timeout : ResolveErrorKind
  | OtherKind : ResolveErrorKind
deriving DecidableEq, Repr

/-- The outcome of one resolver call: `Ok` with the ordered list of resolved
values (rendered as strings, as the source does with `to_string`), or an
error kind. An `Ok` lookup with an empty record list is representable, as in
the source's `lookup.iter()`. -/
def LookupResult : Type := Except ResolveErrorKind (List String)

/-- A resolver call performed by `process_entry`, identified by the kind of
lookup and the input item it was performed for. -/
inductive Call : Type where
  | reverse_lookup : String → Call
  | ipv4_lookup : String → Call
  | ipv6_lookup : String → Call
deriving DecidableEq, Repr

/-- The external resolver, as an oracle from the input item to the outcome of
each lookup the source can perform on it. (The source calls
`resolver.reverse_lookup(ip)` where `ip` is parsed deterministically from the
input string, so keying the oracle on the input string loses nothing.) -/
structure Resolver : Type where
  reverse_lookup : String → LookupResult
  ipv4_lookup : String → LookupResult
  ipv6_lookup : String → LookupResult

/-- Translation of `process_entry` (src/main.rs lines 128-231).
`ipParses` embeds the result of `input.parse::<IpAddr>()` (Rust std).
Returns the source's `Option<String>` result paired with the list of
resolver calls performed, in the order the source performs them. -/
def process_entry (input : String) (ipParses : Bool) (resolver : Resolver)
    (do_reverse do_ipv4 do_ipv6 : Bool) : Option String × List Call :=
  if do_reverse then
    if ipParses then
      let calls := [Call.reverse_lookup input]
      match resolver.reverse_lookup input with
      | .ok lookup =>
        match lookup.head? with
        | some name => (some (input ++ "=" ++ name), calls)
        | none => (some (input ++ ":No records found"), calls)
      | .error e =>
        match e with
        | .NoRecordsFound response_code =>
          match response_code with
          | .NXDomain => (some (input ++ ":NXDOMAIN"), calls)
          | .ServFail => (some (input ++ ":Temporary error"), calls)
          | _ => (some (input ++ ":No records found"), calls)
        | .Timeout => (some (input ++ ":Temporary error"), calls)
        | _ => (some (input ++ ":Temporary error"), calls)
    else
      (some (input ++ ":Invalid IP address format"), [])
  else
    let step4 : List String × List ResolveErrorKind × List Call :=
      if do_ipv4 then
        match resolver.ipv4_lookup input with
        | .ok lookup => (lookup, [], [Call.ipv4_lookup input])
        | .error e => ([], [e], [Call.ipv4_lookup input])
      else ([], [], [])
    let step6 : List String × List ResolveErrorKind × List Call :=
      if do_ipv6 then
        match resolver.ipv6_lookup input with
        | .ok lookup => (lookup, [], [Call.ipv6_lookup input])
        | .error e => ([], [e], [Call.ipv6_lookup input])
      else ([], [], [])
    let results : List String := step4.1 ++ step6.1
    let errors : List ResolveErrorKind := step4.2.1 ++ step6.2.1
    let calls : List Call := step4.2.2 ++ step6.2.2
    if !results.isEmpty then
      (some (input ++ "=" ++ String.intercalate "," results), calls)
    else if errors.isEmpty then
      (some (input ++ ":No records found"), calls)
    else
      let has_nxdomain := errors.any fun e =>
        match e with
        | .NoRecordsFound .NXDomain => true
        | _ => false
      let has_temp_error := errors.any fun e =>
        match e with
        | .NoRecordsFound .NXDomain => false
        | .NoRecordsFound .NoError => false
        | _ => true
      if has_nxdomain then
        (some (input ++ ":NXDOMAIN"), calls)
      else if has_temp_error then
        (some (input ++ ":Temporary error"), calls)
      else if do_ipv4 && !do_ipv6 then
        (some (input ++ ":No A records found"), calls)
      else if do_ipv6 && !do_ipv4 then
        (some (input ++ ":No AAAA records found"), calls)
      else
        (some (input ++ ":No records found"), calls)

/-- One raw line read from stdin by `read_until(b'\n', ..)`: whether its bytes
are valid UTF-8 (`std::str::from_utf8` succeeding), and, when they are, the
decoded string. -/
structure RawLine : Type where
  bytes_valid_utf8 : Bool
  decoded : String

/-- Rust's `str::trim`: the string with leading and trailing whitespace
characters removed (we use Lean's `Char.isWhitespace` for the whitespace
class; the inputs of interest — spaces, tabs, `\r`, `\n` — are covered). -/
def rust_trim (s : String) : String :=
  String.mk
    (((s.data.dropWhile Char.isWhitespace).reverse.dropWhile
        Char.isWhitespace).reverse)

/-- Rust's `str::starts_with('#')`: whether the first character is `#`. -/
def starts_with_hash (s : String) : Bool :=
  match s.data with
  | [] => false
  | c :: _ => c = '#'

/-- Translation of the body of the `input_stream` loop (src/main.rs lines
77-83): invalid UTF-8 lines are skipped, the decoded line is trimmed, and
lines starting with `#` or empty after trimming are skipped; otherwise the
trimmed line is yielded. `none` means the line is silently discarded: the
loop surfaces no error for it. -/
def filterLine (l : RawLine) : Option String :=
  if l.bytes_valid_utf8 then
    let trimmed := rust_trim l.decoded
    if !starts_with_hash trimmed && !(trimmed == "") then some trimmed
    else none
  else none

/-- Translation of the `input_stream` (src/main.rs lines 72-86): the filtered
sequence of query items produced from the raw lines. -/
def input_stream (lines : List RawLine) : List String :=
  lines.filterMap filterLine

/-- The resolution modes of the spec, mapped to the three flags `main` hands
to `process_entry` (after the default-family fixup at lines 93-98). -/
inductive ResolutionMode : Type where
  | Reverse : ResolutionMode
  | ForwardV4 : ResolutionMode
  | ForwardV6 : ResolutionMode
  | ForwardDual : ResolutionMode
deriving DecidableEq, Repr

def ResolutionMode.doReverse : ResolutionMode → Bool
  | .Reverse => true
  | _ => false

def ResolutionMode.doIpv4 : ResolutionMode → Bool
  | .ForwardV4 => true
  | .ForwardDual => true
  | _ => false

def ResolutionMode.doIpv6 : ResolutionMode → Bool
  | .ForwardV6 => true
  | .ForwardDual => true
  | _ => false

/-- The pipeline in preserve-input-order mode (src/main.rs lines 114-123):
each query item from the input stream is processed, and the `Some` outputs
are printed in input order (`buffered` keeps the stream order; `for_each`
prints only `Some` results). `ipParses` embeds `String::parse::<IpAddr>`. -/
def run_pipeline (mode : ResolutionMode) (ipParses : String → Bool)
    (resolver : Resolver) (lines : List RawLine) : List String :=
  (input_stream lines).filterMap fun input =>
    (process_entry input (ipParses input) resolver
      mode.doReverse mode.doIpv4 mode.doIpv6).1

/-- The values a lookup outcome contributes to the source's `results` vector:
all records on `Ok`, nothing on `Err`. -/
def okValues : LookupResult → List String
  | .ok l => l
  | .error _ => []

/-- The error a lookup outcome contributes to the source's `errors` vector. -/
def errValues : LookupResult → List ResolveErrorKind
  | .ok _ => []
  | .error e => [e]

/-- The concatenated successful values of the performed forward sub-queries,
in family order (A before AAAA), as the source accumulates them. -/
def fwdValues (resolver : Resolver) (input : String)
    (do_ipv4 do_ipv6 : Bool) : List String :=
  (if do_ipv4 then okValues (resolver.ipv4_lookup input) else []) ++
    (if do_ipv6 then okValues (resolver.ipv6_lookup input) else [])

/-- The errors of the performed forward sub-queries, in family order. -/
def fwdErrors (resolver : Resolver) (input : String)
    (do_ipv4 do_ipv6 : Bool) : List ResolveErrorKind :=
  (if do_ipv4 then errValues (resolver.ipv4_lookup input) else []) ++
    (if do_ipv6 then errValues (resolver.ipv6_lookup input) else [])

/-- Whether an error is NXDOMAIN, as the source's priority loop tests. -/
def isNXDOMAINErr : ResolveErrorKind → Bool
  | .NoRecordsFound .NXDomain => true
  | _ => false

/-- Whether an error is NODATA (`NoRecordsFound` with `NoError`). -/
def isNODATAErr : ResolveErrorKind → Bool
  | .NoRecordsFound .NoError => true
  | _ => false

/-- Whether an error counts as temporary in the source's forward priority
loop: anything that is neither NXDOMAIN nor NODATA (timeout, server failure,
other response codes, other error kinds). -/
def isTempErr (e : ResolveErrorKind) : Bool :=
  !isNXDOMAINErr e && !isNODATAErr e

/-- A resolver returning fixed outcomes regardless of the input, used to
instantiate theorems at concrete inputs. -/
def constResolver (rev v4 v6 : LookupResult) : Resolver where
  reverse_lookup := fun _ => rev
  ipv4_lookup := fun _ => v4
  ipv6_lookup := fun _ => v6

/-- C6: in reverse mode, an input that does not parse as an IP address yields
exactly `<input>:Invalid IP address format`, and the resolver is never
invoked for that item (the call list is empty). -/
theorem reverse_invalid_ip_no_call (input : String) (resolver : Resolver)
    (do_ipv4 do_ipv6 : Bool) :
    process_entry input false resolver true do_ipv4 do_ipv6 =
      (some (input ++ ":Invalid IP address format"), []) := rfl

/-- C9: in reverse mode, a successful lookup returning at least one hostname
yields `<input>=<first hostname>`; the remaining hostnames are discarded. -/
theorem reverse_success_first_name (input : String) (resolver : Resolver)
    (name : String) (rest : List String) (do_ipv4 do_ipv6 : Bool)
    (h : resolver.reverse_lookup input = .ok (name :: rest)) :
    process_entry input true resolver true do_ipv4 do_ipv6 =
      (some (input ++ "=" ++ name), [Call.reverse_lookup input]) := by
  simp [process_entry, h]

/-- Witness for C9 at the spec's concrete scenario: `8.8.8.8` resolving to
`dns.google` (with a second hostname present and discarded). -/
theorem reverse_success_first_name_witness :
    process_entry "8.8.8.8" true
        (constResolver (.ok ["dns.google", "alt.example"]) (.ok []) (.ok []))
        true false false =
      (some ("8.8.8.8" ++ "=" ++ "dns.google"), [Call.reverse_lookup "8.8.8.8"]) :=
  reverse_success_first_name "8.8.8.8"
    (constResolver (.ok ["dns.google", "alt.example"]) (.ok []) (.ok []))
    "dns.google" ["alt.example"] false false rfl

/-- C10: in reverse mode, a successful lookup with an empty hostname set is
rendered as the failure line `<input>:No records found`, never with the `=`
success separator. -/
theorem reverse_empty_ok_no_records (input : String) (resolver : Resolver)
    (do_ipv4 do_ipv6 : Bool)
    (h : resolver.reverse_lookup input = .ok []) :
    process_entry input true resolver true do_ipv4 do_ipv6 =
      (some (input ++ ":No records found"), [Call.reverse_lookup input]) := by
  simp [process_entry, h]

/-- Witness for C10 at a concrete input. -/
theorem reverse_empty_ok_no_records_witness :
    process_entry "8.8.4.4" true
        (constResolver (.ok []) (.ok []) (.ok []))
        true false false =
      (some ("8.8.4.4" ++ ":No records found"), [Call.reverse_lookup "8.8.4.4"]) :=
  reverse_empty_ok_no_records "8.8.4.4"
    (constResolver (.ok []) (.ok []) (.ok [])) false false rfl

/-- The source's forward classification (lines 186-229), characterized over
the errors of the performed sub-queries when every performed sub-query
failed: NXDOMAIN beats temporary beats NODATA. Shared helper for the
claim theorems below. -/
theorem forward_classify (input : String) (ipParses : Bool)
    (resolver : Resolver) (do_ipv4 do_ipv6 : Bool) (e4 e6 : ResolveErrorKind)
    (h4 : do_ipv4 = true → resolver.ipv4_lookup input = .error e4)
    (h6 : do_ipv6 = true → resolver.ipv6_lookup input = .error e6)
    (hsome : do_ipv4 || do_ipv6) :
    ((fwdErrors resolver input do_ipv4 do_ipv6).any isNXDOMAINErr = true →
      (process_entry input ipParses resolver false do_ipv4 do_ipv6).1 =
        some (input ++ ":NXDOMAIN")) ∧
    ((fwdErrors resolver input do_ipv4 do_ipv6).any isNXDOMAINErr = false →
      (fwdErrors resolver input do_ipv4 do_ipv6).any isTempErr = true →
      (process_entry input ipParses resolver false do_ipv4 do_ipv6).1 =
        some (input ++ ":Temporary error")) ∧
    ((fwdErrors resolver input do_ipv4 do_ipv6).any isNXDOMAINErr = false →
      (fwdErrors resolver input do_ipv4 do_ipv6).any isTempErr = false →
      ((process_entry input ipParses resolver false do_ipv4 do_ipv6).1 =
          some (input ++ ":No A records found") ∨
        (process_entry input ipParses resolver false do_ipv4 do_ipv6).1 =
          some (input ++ ":No AAAA records found") ∨
        (process_entry input ipParses resolver false do_ipv4 do_ipv6).1 =
          some (input ++ ":No records found"))) := by
  cases do_ipv4 with
  | false =>
    cases do_ipv6 with
    | false => exact absurd hsome (by decide)
    | true =>
      have h6' := h6 rfl
      rcases e6 with (_ | _ | _ | _) | - | - <;>
        simp [process_entry, h6', fwdErrors, errValues, isNXDOMAINErr,
          isNODATAErr, isTempErr]
  | true =>
    cases do_ipv6 with
    | false =>
      have h4' := h4 rfl
      rcases e4 with (_ | _ | _ | _) | - | - <;>
        simp [process_entry, h4', fwdErrors, errValues, isNXDOMAINErr,
          isNODATAErr, isTempErr]
    | true =>
      have h4' := h4 rfl
      have h6' := h6 rfl
      rcases e4 with (_ | _ | _ | _) | - | - <;>
        rcases e6 with (_ | _ | _ | _) | - | - <;>
          simp [process_entry, h4', h6', fwdErrors, errValues, isNXDOMAINErr,
            isNODATAErr, isTempErr]

/-- C1 (amended to forward modes): when every performed forward sub-query
fails, the classified result follows the fixed priority NXDOMAIN over
`Temporary error` over the NODATA messages, and in dual-family mode an
NXDOMAIN on either sub-query (in particular paired with a NODATA on the
other) always yields NXDOMAIN. In reverse mode the code deviates from the
claim as stated (see the counterexample). -/
theorem forward_failure_priority (input : String) (ipParses : Bool)
    (resolver : Resolver) (do_ipv4 do_ipv6 : Bool) (e4 e6 : ResolveErrorKind)
    (h4 : do_ipv4 = true → resolver.ipv4_lookup input = .error e4)
    (h6 : do_ipv6 = true → resolver.ipv6_lookup input = .error e6)
    (hsome : do_ipv4 || do_ipv6) :
    ((fwdErrors resolver input do_ipv4 do_ipv6).any isNXDOMAINErr = true →
      (process_entry input ipParses resolver false do_ipv4 do_ipv6).1 =
        some (input ++ ":NXDOMAIN")) ∧
    ((fwdErrors resolver input do_ipv4 do_ipv6).any isNXDOMAINErr = false →
      (fwdErrors resolver input do_ipv4 do_ipv6).any isTempErr = true →
      (process_entry input ipParses resolver false do_ipv4 do_ipv6).1 =
        some (input ++ ":Temporary error")) ∧
    ((fwdErrors resolver input do_ipv4 do_ipv6).any isNXDOMAINErr = false →
      (fwdErrors resolver input do_ipv4 do_ipv6).any isTempErr = false →
      ((process_entry input ipParses resolver false do_ipv4 do_ipv6).1 =
          some (input ++ ":No A records found") ∨
        (process_entry input ipParses resolver false do_ipv4 do_ipv6).1 =
          some (input ++ ":No AAAA records found") ∨
        (process_entry input ipParses resolver false do_ipv4 do_ipv6).1 =
          some (input ++ ":No records found"))) ∧
    (do_ipv4 = true → do_ipv6 = true →
      (isNXDOMAINErr e4 || isNXDOMAINErr e6) = true →
      (process_entry input ipParses resolver false do_ipv4 do_ipv6).1 =
        some (input ++ ":NXDOMAIN")) := by
  obtain ⟨hnx, htemp, hnodata⟩ :=
    forward_classify input ipParses resolver do_ipv4 do_ipv6 e4 e6 h4 h6 hsome
  refine ⟨hnx, htemp, hnodata, ?_⟩
  intro hd4 hd6 hor
  apply hnx
  subst hd4
  subst hd6
  simp [fwdErrors, errValues, h4 rfl, h6 rfl]
  simpa using hor

/-- Witness for C1: dual-family mode, IPv4 sub-query NXDOMAIN, IPv6 sub-query
NODATA; the result is the NXDOMAIN line. -/
theorem forward_failure_priority_witness :
    (process_entry "nonexistent.invalid" false
        (constResolver (.ok []) (.error (.NoRecordsFound .NXDomain))
          (.error (.NoRecordsFound .NoError))) false true true).1 =
      some ("nonexistent.invalid" ++ ":NXDOMAIN") :=
  (forward_failure_priority "nonexistent.invalid" false
      (constResolver (.ok []) (.error (.NoRecordsFound .NXDomain))
        (.error (.NoRecordsFound .NoError))) true true
      (.NoRecordsFound .NXDomain) (.NoRecordsFound .NoError)
      (fun _ => rfl) (fun _ => rfl) rfl).1 (by decide)

/-- Counterexample to C1 as stated: in reverse mode (an item whose single
sub-query fails), a `NoRecordsFound` failure whose response code is neither
NXDomain, NoError nor ServFail is a transient/unclassified failure (it is in
the temporary class and is not NXDOMAIN), yet the emitted line is the NODATA
message `No records found`, not `Temporary error`. -/
theorem reverse_transient_nodata_counterexample :
    isTempErr (.NoRecordsFound .OtherCode) = true ∧
    isNXDOMAINErr (.NoRecordsFound .OtherCode) = false ∧
    (process_entry "203.0.113.9" true
        (constResolver (.error (.NoRecordsFound .OtherCode)) (.ok []) (.ok []))
        true false false).1 =
      some ("203.0.113.9" ++ ":No records found") ∧
    some ("203.0.113.9" ++ ":No records found") ≠
      some ("203.0.113.9" ++ ":Temporary error") := by
  refine ⟨rfl, rfl, rfl, ?_⟩
  decide

/-- C2: in forward mode, when at least one performed sub-query succeeds with
values, the result is the success line joining all values of all successful
sub-queries with commas, A values before AAAA values; failures of the
sibling sub-query do not appear (the output depends only on the values). -/
theorem forward_success_aggregates (input : String) (ipParses : Bool)
    (resolver : Resolver) (do_ipv4 do_ipv6 : Bool)
    (h : fwdValues resolver input do_ipv4 do_ipv6 ≠ []) :
    (process_entry input ipParses resolver false do_ipv4 do_ipv6).1 =
      some (input ++ "=" ++
        String.intercalate "," (fwdValues resolver input do_ipv4 do_ipv6)) := by
  cases do_ipv4 <;> cases do_ipv6 <;>
    rcases h4 : resolver.ipv4_lookup input with l4 | e4 <;>
    rcases h6 : resolver.ipv6_lookup input with l6 | e6 <;>
      simp_all [process_entry, fwdValues, okValues]

/-- Witness for C2 at the spec's concrete scenario: dual mode, IPv4 sub-query
returns NODATA, IPv6 sub-query returns one address; the sibling failure is
invisible in the output. -/
theorem forward_success_aggregates_witness :
    (process_entry "example.com" false
        (constResolver (.ok []) (.error (.NoRecordsFound .NoError))
          (.ok ["2606:2800:220:1:248:1893:25c8:1946"])) false true true).1 =
      some "example.com=2606:2800:220:1:248:1893:25c8:1946" :=
  forward_success_aggregates "example.com" false
    (constResolver (.ok []) (.error (.NoRecordsFound .NoError))
      (.ok ["2606:2800:220:1:248:1893:25c8:1946"])) true true (by decide)

/-- C5 (amended): a timeout, a server failure, or an unclassified error kind
is classified `Temporary error` in every mode, and in forward modes every
failure that is neither NXDOMAIN nor NODATA is classified `Temporary error`;
but in reverse mode a `NoRecordsFound` failure whose response code is not
NXDomain/NoError/ServFail yields `No records found` instead. -/
theorem temp_error_classification (input : String) (ipParses : Bool)
    (resolver : Resolver) (do_ipv4 do_ipv6 : Bool)
    (e e4 e6 : ResolveErrorKind) :
    (resolver.reverse_lookup input = .error e → isTempErr e = true →
      e ≠ .NoRecordsFound .OtherCode →
      (process_entry input true resolver true do_ipv4 do_ipv6).1 =
        some (input ++ ":Temporary error")) ∧
    (resolver.reverse_lookup input = .error (.NoRecordsFound .OtherCode) →
      (process_entry input true resolver true do_ipv4 do_ipv6).1 =
        some (input ++ ":No records found")) ∧
    ((do_ipv4 = true → resolver.ipv4_lookup input = .error e4) →
      (do_ipv6 = true → resolver.ipv6_lookup input = .error e6) →
      (do_ipv4 || do_ipv6) = true →
      (fwdErrors resolver input do_ipv4 do_ipv6).any isNXDOMAINErr = false →
      (fwdErrors resolver input do_ipv4 do_ipv6).any isTempErr = true →
      (process_entry input ipParses resolver false do_ipv4 do_ipv6).1 =
        some (input ++ ":Temporary error")) := by
  refine ⟨?_, ?_, ?_⟩
  · intro h htemp hne
    rcases e with (_ | _ | _ | _) | - | - <;>
      simp_all [process_entry, isTempErr, isNXDOMAINErr, isNODATAErr]
  · intro h
    simp [process_entry, h]
  · intro h4 h6 hsome hnx htemp
    exact (forward_classify input ipParses resolver do_ipv4 do_ipv6 e4 e6
      h4 h6 hsome).2.1 hnx htemp

/-- Witness for C5: a reverse-mode timeout is classified `Temporary error`. -/
theorem temp_error_classification_witness :
    (process_entry "192.0.2.5" true
        (constResolver (.error .Timeout) (.ok []) (.ok []))
        true false false).1 =
      some ("192.0.2.5" ++ ":Temporary error") :=
  (temp_error_classification "192.0.2.5" true
      (constResolver (.error .Timeout) (.ok []) (.ok []))
      false false .Timeout .Timeout .Timeout).1 rfl (by decide) (by decide)

/-- Counterexample to C5 as stated: in reverse mode, a `NoRecordsFound`
failure with an unrecognized response code — a transient/unclassified cause,
neither NXDOMAIN nor NODATA — is classified `No records found`, not
`Temporary error`. -/
theorem reverse_temp_class_counterexample :
    isTempErr (.NoRecordsFound .OtherCode) = true ∧
    (process_entry "198.51.100.7" true
        (constResolver (.error (.NoRecordsFound .OtherCode)) (.ok []) (.ok []))
        true false false).1 =
      some ("198.51.100.7" ++ ":No records found") ∧
    some ("198.51.100.7" ++ ":No records found") ≠
      some ("198.51.100.7" ++ ":Temporary error") := by
  refine ⟨rfl, rfl, ?_⟩
  decide

/-- C7: in forward mode, when every performed sub-query returns NODATA
(`NoRecordsFound` with response code NoError), the result names the missing
record type when exactly one family was queried, and is the generic
`No records found` when both families were queried. -/
theorem forward_nodata_message (input : String) (ipParses : Bool)
    (resolver : Resolver) (do_ipv4 do_ipv6 : Bool)
    (h4 : do_ipv4 = true → resolver.ipv4_lookup input =
        .error (.NoRecordsFound .NoError))
    (h6 : do_ipv6 = true → resolver.ipv6_lookup input =
        .error (.NoRecordsFound .NoError)) :
    (do_ipv4 = true → do_ipv6 = false →
      (process_entry input ipParses resolver false do_ipv4 do_ipv6).1 =
        some (input ++ ":No A records found")) ∧
    (do_ipv4 = false → do_ipv6 = true →
      (process_entry input ipParses resolver false do_ipv4 do_ipv6).1 =
        some (input ++ ":No AAAA records found")) ∧
    (do_ipv4 = true → do_ipv6 = true →
      (process_entry input ipParses resolver false do_ipv4 do_ipv6).1 =
        some (input ++ ":No records found")) := by
  cases do_ipv4 with
  | false =>
    cases do_ipv6 with
    | false => simp
    | true =>
      have h6' := h6 rfl
      simp [process_entry, h6']
  | true =>
    cases do_ipv6 with
    | false =>
      have h4' := h4 rfl
      simp [process_entry, h4']
    | true =>
      have h4' := h4 rfl
      have h6' := h6 rfl
      simp [process_entry, h4', h6']

/-- Witness for C7: IPv4-only mode with a NODATA answer yields the
family-specific message. -/
theorem forward_nodata_message_witness :
    (process_entry "example.org" false
        (constResolver (.ok []) (.error (.NoRecordsFound .NoError))
          (.ok [])) false true false).1 =
      some ("example.org" ++ ":No A records found") :=
  (forward_nodata_message "example.org" false
      (constResolver (.ok []) (.error (.NoRecordsFound .NoError)) (.ok []))
      true false (fun _ => rfl) (fun h => absurd h (by decide))).1 rfl rfl

/-- Every branch of `process_entry` returns `Some` result line: per-item
processing never produces no result, whatever the resolver does. -/
theorem process_entry_isSome (input : String) (ipParses : Bool)
    (resolver : Resolver) (do_reverse do_ipv4 do_ipv6 : Bool) :
    ((process_entry input ipParses resolver do_reverse do_ipv4 do_ipv6).1).isSome
      = true := by
  cases do_reverse with
  | true =>
    cases ipParses with
    | false => rfl
    | true =>
      cases h : resolver.reverse_lookup input with
      | ok l =>
        cases l with
        | nil => simp [process_entry, h]
        | cons name rest => simp [process_entry, h]
      | error e =>
        rcases e with (_ | _ | _ | _) | - | - <;> simp [process_entry, h]
  | false =>
    cases do_ipv4 <;> cases do_ipv6 <;>
      rcases h4 : resolver.ipv4_lookup input with l4 | e4 <;>
      rcases h6 : resolver.ipv6_lookup input with l6 | e6 <;>
        (simp [process_entry, h4, h6]; repeat' split) <;> simp

/-- A `filterMap` by a function that never returns `none` keeps the length. -/
theorem length_filterMap_of_isSome {α β : Type} (f : α → Option β)
    (l : List α) (h : ∀ x, (f x).isSome = true) :
    (l.filterMap f).length = l.length := by
  induction l with
  | nil => rfl
  | cons a t ih =>
    cases hfa : f a with
    | none =>
      have := h a
      rw [hfa] at this
      exact absurd this (by simp)
    | some b => simp [List.filterMap_cons, hfa, ih]

/-- C3: for every run configuration, the preserve-input-order pipeline emits
exactly one output line per query item surviving the input filter, and
per-item processing always produces a result, whatever the resolver
returns. -/
theorem pipeline_one_output_per_item (mode : ResolutionMode)
    (ipParses : String → Bool) (resolver : Resolver) (lines : List RawLine) :
    (run_pipeline mode ipParses resolver lines).length =
      (input_stream lines).length ∧
    ∀ input : String,
      ((process_entry input (ipParses input) resolver mode.doReverse
        mode.doIpv4 mode.doIpv6).1).isSome = true :=
  ⟨length_filterMap_of_isSome _ _ fun input =>
      process_entry_isSome input (ipParses input) resolver _ _ _,
    fun input => process_entry_isSome input (ipParses input) resolver _ _ _⟩

/-- C8: a raw input line is discarded (no query, no output, no error) exactly
when it fails the UTF-8 check, is empty after trimming, or starts with `#`
after trimming; otherwise it yields its trimmed text as the query item. -/
theorem line_filter_characterization (l : RawLine) :
    (filterLine l = none ↔
      (l.bytes_valid_utf8 = false ∨ rust_trim l.decoded = "" ∨
        starts_with_hash (rust_trim l.decoded) = true)) ∧
    (l.bytes_valid_utf8 = true → rust_trim l.decoded ≠ "" →
      starts_with_hash (rust_trim l.decoded) = false →
      filterLine l = some (rust_trim l.decoded)) := by
  rcases l with ⟨valid, s⟩
  cases valid with
  | false => simp [filterLine]
  | true =>
    rcases hsh : starts_with_hash (rust_trim s) <;>
      rcases he : rust_trim s == "" <;>
        simp_all [filterLine]

/-- Witness for C8: a line with surrounding whitespace survives as its
trimmed text, and a comment line is discarded. -/
theorem line_filter_characterization_witness :
    filterLine ⟨true, " example.com "⟩ =
      some (rust_trim " example.com ") ∧
    filterLine ⟨true, "# notes"⟩ = none :=
  ⟨(line_filter_characterization ⟨true, " example.com "⟩).2 rfl
      (by decide) (by decide),
    (line_filter_characterization ⟨true, "# notes"⟩).1.mpr
      (Or.inr (Or.inr (by decide)))⟩

/-- Modelled from the spec: one drain step of the preserve-input-order Output
Sink (the ordering behavior of the external `futures::stream::buffered`
combinator used at src/main.rs line 116, code not in this repository; spec
§4.2 "results are held until their turn" and §9 "indexed completion ...
drained in order"). Starting at slot `next`, emits the results of
consecutive completed slots until the first slot still pending; `fuel`
bounds the recursion and is always chosen large enough. -/
def drainFrom {α : Type} (results : Nat → α) (completed : List Nat) :
    Nat → Nat → List α
  | _, 0 => []
  | next, fuel + 1 =>
    if next ∈ completed then
      results next :: drainFrom results completed (next + 1) fuel
    else []

/-- Modelled from the spec: the preserve-input-order sink consuming completion
events one at a time. `schedule` lists the item indices in the order their
resolutions complete; after each completion the sink drains every result
whose turn has arrived. -/
def emitLoop {α : Type} (results : Nat → α) (n : Nat) :
    List Nat → List Nat → Nat → List α
  | [], _, _ => []
  | i :: rest, completed, next =>
    let emitted := drainFrom results (i :: completed) next (n + 1 - next)
    emitted ++ emitLoop results n rest (i :: completed) (next + emitted.length)

/-- Modelled from the spec: the full output sequence of the
preserve-input-order sink for `n` items whose completions arrive in the
order `schedule`. -/
def orderedEmit {α : Type} (results : Nat → α) (n : Nat)
    (schedule : List Nat) : List α :=
  emitLoop results n schedule [] 0

/-- `drainFrom` emits the results of a consecutive block of completed slots
and stops at the first pending slot (when fuel suffices). -/
theorem drainFrom_spec {α : Type} (results : Nat → α) (completed : List Nat) :
    ∀ fuel next : Nat, ∃ k,
      drainFrom results completed next fuel =
        (List.range' next k).map results ∧
      k ≤ fuel ∧
      (∀ m, next ≤ m → m < next + k → m ∈ completed) ∧
      (k < fuel → (next + k) ∉ completed) := by
  intro fuel
  induction fuel with
  | zero =>
    intro next
    refine ⟨0, rfl, Nat.le_refl 0, ?_, ?_⟩
    · intro m h1 h2
      omega
    · intro h
      omega
  | succ fuel ih =>
    intro next
    by_cases h : next ∈ completed
    · obtain ⟨k, hdrain, hk, hmem, hstop⟩ := ih (next + 1)
      refine ⟨k + 1, ?_, by omega, ?_, ?_⟩
      · rw [List.range'_succ]
        simp only [drainFrom, if_pos h, List.map_cons]
        rw [hdrain]
      · intro m h1 h2
        rcases Nat.eq_or_lt_of_le h1 with h1' | h1'
        · exact h1' ▸ h
        · exact hmem m (by omega) (by omega)
      · intro hlt
        have hk' : k < fuel := by omega
        have hres := hstop hk'
        have heq : next + 1 + k = next + (k + 1) := by omega
        rw [heq] at hres
        exact hres
    · refine ⟨0, ?_, Nat.zero_le _, ?_, ?_⟩
      · simp [drainFrom, h]
      · intro m h1 h2
        omega
      · intro _
        simpa using h

/-- Invariant proof for the sink loop: once the slots below `next` are all
emitted and every pending index is still scheduled, processing the rest of
the schedule emits exactly the remaining results in index order. -/
theorem emitLoop_spec {α : Type} (results : Nat → α) (n : Nat) :
    ∀ (schedule completed : List Nat) (next : Nat),
      next ≤ n →
      (∀ x ∈ completed, x < n) →
      (∀ x ∈ schedule, x < n) →
      (∀ m, m < next → m ∈ completed) →
      next ∉ completed →
      (∀ x ∈ schedule, x ∉ completed) →
      schedule.Nodup →
      (∀ m, m < n → m ∈ completed ∨ m ∈ schedule) →
      emitLoop results n schedule completed next =
        (List.range' next (n - next)).map results := by
  intro schedule
  induction schedule with
  | nil =>
    intro completed next hn hcb hsb hlow hnext hdisj hnd hcov
    have hn' : n ≤ next := by
      by_contra hlt
      push_neg at hlt
      rcases hcov next hlt with h | h
      · exact hnext h
      · simp at h
    have hz : n - next = 0 := by omega
    rw [hz]
    rfl
  | cons i rest ih =>
    intro completed next hn hcb hsb hlow hnext hdisj hnd hcov
    obtain ⟨k, hdrain, hk, hmem, hstop⟩ :=
      drainFrom_spec results (i :: completed) (n + 1 - next) next
    have hib : i < n := hsb i (List.mem_cons_self i rest)
    have hcb' : ∀ x ∈ i :: completed, x < n := by
      intro x hx
      rcases List.mem_cons.mp hx with h | h
      · exact h ▸ hib
      · exact hcb x h
    have hkn : k ≤ n - next := by
      rcases Nat.eq_zero_or_pos k with h | hkpos
      · omega
      · have hmemk := hmem (next + k - 1) (by omega) (by omega)
        have := hcb' _ hmemk
        omega
    have hstop' : next + k ∉ i :: completed := hstop (by omega)
    have hlow' : ∀ m, m < next + k → m ∈ i :: completed := by
      intro m hm
      by_cases hmn : m < next
      · exact List.mem_cons_of_mem _ (hlow m hmn)
      · exact hmem m (by omega) hm
    have hdisj' : ∀ x ∈ rest, x ∉ i :: completed := by
      intro x hx hxc
      rcases List.mem_cons.mp hxc with h | h
      · exact (List.nodup_cons.mp hnd).1 (h ▸ hx)
      · exact hdisj x (List.mem_cons_of_mem _ hx) h
    have hcov' : ∀ m, m < n → m ∈ i :: completed ∨ m ∈ rest := by
      intro m hm
      rcases hcov m hm with h | h
      · exact Or.inl (List.mem_cons_of_mem _ h)
      · rcases List.mem_cons.mp h with h' | h'
        · exact Or.inl (h' ▸ List.mem_cons_self i completed)
        · exact Or.inr h'
    have hrec := ih (i :: completed) (next + k) (by omega) hcb'
      (fun x hx => hsb x (List.mem_cons_of_mem _ hx)) hlow' hstop' hdisj'
      (List.nodup_cons.mp hnd).2 hcov'
    have hlen : (drainFrom results (i :: completed) next (n + 1 - next)).length
        = k := by
      rw [hdrain]
      simp
    show drainFrom results (i :: completed) next (n + 1 - next) ++
        emitLoop results n rest (i :: completed)
          (next + (drainFrom results (i :: completed) next (n + 1 - next)).length)
      = (List.range' next (n - next)).map results
    rw [hlen, hrec, hdrain, ← List.map_append]
    congr 1
    have h1m : next + 1 * k = next + k := by omega
    have hplus : n - next = (n - (next + k)) + k := by omega
    rw [hplus, ← List.range'_append next k (n - (next + k)) 1, h1m]

/-- Whatever order completions arrive in, the preserve-input-order sink
emits all results in input-index order. -/
theorem orderedEmit_perm {α : Type} (results : Nat → α) (n : Nat)
    (schedule : List Nat) (hperm : schedule.Perm (List.range n)) :
    orderedEmit results n schedule = (List.range n).map results := by
  have hmem : ∀ x ∈ schedule, x < n := by
    intro x hx
    simpa [List.mem_range] using hperm.mem_iff.mp hx
  have hnd : schedule.Nodup := hperm.nodup_iff.mpr (List.nodup_range n)
  have hcov : ∀ m, m < n → m ∈ ([] : List Nat) ∨ m ∈ schedule := fun m hm =>
    Or.inr (hperm.mem_iff.mpr (List.mem_range.mpr hm))
  have hmain := emitLoop_spec results n schedule [] 0 (Nat.zero_le n)
    (by intro x hx; simp at hx) hmem (by intro m hm; omega)
    (by simp) (by intro x hx; simp) hnd hcov
  rw [orderedEmit, hmain, Nat.sub_zero, List.range_eq_range']

/-- C4: in preserve-input-order mode, for any completion order of the `n`
items (any permutation of the input indices), the emitted sequence of
(index, result-line) pairs is exactly the input-order sequence: for every
pair of inputs i < j, the result of input i is emitted before the result of
input j, regardless of completion timing. -/
theorem ordered_mode_preserves_input_order (n : Nat) (inputs : Nat → String)
    (ipParses : String → Bool) (resolver : Resolver) (mode : ResolutionMode)
    (schedule : List Nat) (hperm : schedule.Perm (List.range n)) :
    orderedEmit (fun i => (i,
        (process_entry (inputs i) (ipParses (inputs i)) resolver
          mode.doReverse mode.doIpv4 mode.doIpv6).1)) n schedule =
      (List.range n).map (fun i => (i,
        (process_entry (inputs i) (ipParses (inputs i)) resolver
          mode.doReverse mode.doIpv4 mode.doIpv6).1)) :=
  orderedEmit_perm _ n schedule hperm

/-- Witness for C4: three items completing in the order 2, 0, 1 are still
emitted in input order 0, 1, 2. -/
theorem ordered_mode_preserves_input_order_witness :
    orderedEmit (fun i => (i,
        (process_entry ((fun _ => "example.com") i)
          ((fun _ : String => false) ((fun _ => "example.com") i))
          (constResolver (.ok []) (.ok ["93.184.216.34"]) (.ok []))
          ResolutionMode.ForwardV4.doReverse ResolutionMode.ForwardV4.doIpv4
          ResolutionMode.ForwardV4.doIpv6).1)) 3 [2, 0, 1] =
      (List.range 3).map (fun i => (i,
        (process_entry ((fun _ => "example.com") i)
          ((fun _ : String => false) ((fun _ => "example.com") i))
          (constResolver (.ok []) (.ok ["93.184.216.34"]) (.ok []))
          ResolutionMode.ForwardV4.doReverse ResolutionMode.ForwardV4.doIpv4
          ResolutionMode.ForwardV4.doIpv6).1)) :=
  ordered_mode_preserves_input_order 3 (fun _ => "example.com")
    (fun _ => false) (constResolver (.ok []) (.ok ["93.184.216.34"]) (.ok []))
    ResolutionMode.ForwardV4 [2, 0, 1] (by decide)
